import Mathlib

/-!
Verification development for the BYN social-network backend
(feed visibility, engagement recording, notification emission,
connection-request responses, and feed-algorithm weight validation).

The Django models and view handlers are shallowly embedded: table rows
become structures, querysets become lists, and each request handler
becomes a pure state-transition function returning the new state together
with the status string of its JSON response.  Users are identified by
their primary key (a natural number); character fields that only matter
as opaque labels (titles, messages, contents) are kept as strings.
Timestamps are natural numbers measured in minutes.
-/

namespace BYN

/-- Post row (feed/models.py `Post`), restricted to the columns the
verified flows read: author, visibility, approval flag and the
denormalized engagement counters.  The counters are embedded as integers
so that non-negativity is a provable invariant rather than a typing
artifact (the schema declares them `PositiveIntegerField`). -/
structure Post where
  id : Nat
  author : Nat
  visibility : String
  is_approved : Bool
  likes_count : Int
  comments_count : Int
  shares_count : Int
deriving DecidableEq

/-- Post.can_view (feed/models.py lines 87-100), embedded with its
error path.  `public` posts answer true, `private` posts answer
whether the viewer is the author.  The `connections` branch evaluates
the short-circuiting disjunction `user == self.author or
user.received_connections.filter(...) or user.sent_connections...`:
when the viewer is the author it returns true without touching the
other disjuncts, but for any other viewer it reads
`user.received_connections` — a reverse accessor no model defines (the
related names declared on ConnectionRequest are
`sent_connection_requests` and `received_connection_requests`), so the
attribute lookup raises AttributeError instead of running a queryset;
the `Except.error` value carries that exception. -/
def Post.can_view (p : Post) (user : Nat) : Except String Bool :=
  if p.visibility == "public" then
    Except.ok true
  else if p.visibility == "private" then
    Except.ok (user == p.author)
  else if p.visibility == "connections" then
    if user == p.author then Except.ok true
    else Except.error "AttributeError"
  else
    Except.ok false

/-- Notification row (feed/models.py `Notification`), with the columns
written by `create_notification`; `created_at` is the emission time in
minutes and `is_read` starts out false. -/
structure NotifRow where
  recipient : Nat
  sender : Nat
  notification_type : String
  title : String
  message : String
  post : Option Nat
  comment : Option Nat
  action_url : String
  is_read : Bool
  created_at : Nat
deriving DecidableEq

/-- Deduplication filter of `create_notification` (feed/utils.py lines
26-33): a stored notification blocks a new one when it has the same
(recipient, sender, notification_type, post, comment) tuple and was
created at or after `now` minus five minutes. -/
def notif_matches (now recipient sender : Nat) (ntype : String)
    (post comment : Option Nat) (n : NotifRow) : Bool :=
  n.recipient == recipient && n.sender == sender && n.notification_type == ntype
    && n.post == post && n.comment == comment && decide (now - 5 ≤ n.created_at)

/-- create_notification (feed/utils.py lines 20-47): a no-op returning
none when an identical tuple was emitted within the last five minutes,
otherwise it inserts a new unread row stamped with the current time. -/
def create_notification (now : Nat) (notifs : List NotifRow) (recipient sender : Nat)
    (ntype title message : String) (post comment : Option Nat) (action_url : String) :
    Option NotifRow × List NotifRow :=
  if notifs.any (notif_matches now recipient sender ntype post comment) then
    (none, notifs)
  else
    let row : NotifRow :=
      ⟨recipient, sender, ntype, title, message, post, comment, action_url, false, now⟩
    (some row, notifs ++ [row])

/-- Reaction row (feed/models.py `PostLike`): unique per (user, post)
in the schema, carrying the reaction kind. -/
structure LikeRow where
  user : Nat
  post : Nat
  reaction_type : String
deriving DecidableEq

/-- Share row (feed/models.py `PostShare`): unique per (user, post),
with the optional accompanying comment text. -/
structure ShareRow where
  user : Nat
  post : Nat
  share_content : String
deriving DecidableEq

/-- Comment row (feed/models.py `Comment`), with the mentioned users
set by the create serializer. -/
structure CommentRow where
  id : Nat
  post : Nat
  author : Nat
  content : String
  mentioned_users : List Nat
deriving DecidableEq

/-- Store the feed request handlers operate on: the content tables,
the notification table and the current time (minutes). -/
structure FeedState where
  posts : List Post
  likes : List LikeRow
  shares : List ShareRow
  comments : List CommentRow
  notifs : List NotifRow
  now : Nat
deriving DecidableEq

/-- Relational UPDATE of the post row with primary key `pid`: the
embedded form of mutating a fetched `Post` instance and calling
`save()`. -/
def update_post (posts : List Post) (pid : Nat) (f : Post → Post) : List Post :=
  posts.map fun p => if p.id == pid then f p else p

/-- PostViewSet.like (feed/views.py lines 142-189).  `get_or_create` on
(user, post) decides between the create, toggle-off and swap branches;
the create branch increments the like counter by a relative `F` update
and notifies the author unless the actor is the author, the toggle-off
branch deletes the row and floors the decrement at zero using the
fetched counter value, and the swap branch rewrites the reaction kind
in place without touching the counter. -/
def like (st : FeedState) (u pid : Nat) (k : String) : FeedState × String :=
  match st.posts.find? (fun p => p.id == pid) with
  | none => (st, "not_found")
  | some post =>
    match st.likes.find? (fun l => l.user == u && l.post == pid) with
    | some l =>
      if l.reaction_type == k then
        let likes := st.likes.filter (fun l2 => !(l2.user == u && l2.post == pid))
        let posts := update_post st.posts pid
          (fun p => { p with likes_count := max 0 (post.likes_count - 1) })
        ({ st with likes := likes, posts := posts }, "unliked")
      else
        let likes := st.likes.map
          (fun l2 => if l2.user == u && l2.post == pid then { l2 with reaction_type := k } else l2)
        ({ st with likes := likes }, "reaction_updated")
    | none =>
      let likes := st.likes ++ [⟨u, pid, k⟩]
      let posts := update_post st.posts pid
        (fun p => { p with likes_count := p.likes_count + 1 })
      let st1 := { st with likes := likes, posts := posts }
      if post.author == u then (st1, "liked")
      else
        let notifs := (create_notification st1.now st1.notifs post.author u "like"
          "reacted to your post" "Your post received a reaction" (some pid) none
          "/feed/post/").2
        ({ st1 with notifs := notifs }, "liked")

/-- PostViewSet.share (feed/views.py lines 191-224).  `get_or_create`
on (user, post): an existing row short-circuits to `already_shared`
without touching anything; a fresh share appends the row and increments
the share counter.  When the actor is not the author the handler then
builds the notification title by calling `request.user.full_name()` —
but `full_name` is a property returning a string (accounts/models.py),
so that call raises TypeError: the notification is never created and
the request ends in a server error, while the row insert and counter
update above were already committed in autocommit mode and persist. -/
def share (st : FeedState) (u pid : Nat) (content : String) : FeedState × String :=
  match st.posts.find? (fun p => p.id == pid) with
  | none => (st, "not_found")
  | some post =>
    match st.shares.find? (fun s => s.user == u && s.post == pid) with
    | some _ => (st, "already_shared")
    | none =>
      let shares := st.shares ++ [⟨u, pid, content⟩]
      let posts := update_post st.posts pid
        (fun p => { p with shares_count := p.shares_count + 1 })
      let st1 := { st with shares := shares, posts := posts }
      if post.author == u then (st1, "shared")
      else (st1, "error")

/-- CommentViewSet.create (feed/views.py lines 380-423): insert the
comment row, increment the post's comment counter, notify the post
author (kind `comment`) unless the actor is the author, then notify
each mentioned user (kind `mention`). -/
def comment_create (st : FeedState) (u pid cid : Nat) (content : String)
    (mentioned : List Nat) : FeedState × String :=
  match st.posts.find? (fun p => p.id == pid) with
  | none => (st, "not_found")
  | some post =>
    let comments := st.comments ++ [⟨cid, pid, u, content, mentioned⟩]
    let posts := update_post st.posts pid
      (fun p => { p with comments_count := p.comments_count + 1 })
    let st1 := { st with comments := comments, posts := posts }
    let st2 :=
      if post.author == u then st1
      else { st1 with notifs := (create_notification st1.now st1.notifs post.author u "comment"
        "commented on your post" "New comment" (some pid) (some cid) "/feed/post/").2 }
    let st3 := mentioned.foldl (fun s m =>
      { s with notifs := (create_notification s.now s.notifs m u "mention"
        "mentioned you in a comment" "You were mentioned in a comment" (some pid) (some cid)
        "/feed/post/").2 }) st2
    (st3, "created")

/-- Reaction rows stored for the pair (user, post) — the queryset the
`unique_together ['user', 'post']` constraint of `PostLike` ranges
over. -/
def reactions_for (likes : List LikeRow) (u pid : Nat) : List LikeRow :=
  likes.filter (fun l => l.user == u && l.post == pid)

/-- Sequential execution of a batch of like/react requests, each given
as (user, post, reaction kind). -/
def run_likes (st : FeedState) (ops : List (Nat × Nat × String)) : FeedState :=
  ops.foldl (fun s op => (like s op.1 op.2.1 op.2.2).1) st

/-- FeedAlgorithmUpdateSerializer.validate (feed/serializers.py lines
478-495): the update is accepted exactly when the five weights sum to
a value between 0.8 and 1.2 inclusive, otherwise a validation error is
raised.  The float weights are embedded as rationals. -/
def validate_weights (cw ew rw sw tw : ℚ) : Bool :=
  let total := cw + ew + rw + sw + tw
  decide ((0.8 : ℚ) ≤ total) && decide (total ≤ (1.2 : ℚ))

/-- Established connection row (connections/models.py `Connection`):
an unordered pair stored as (user1, user2) plus the originating
request. -/
structure Connection where
  user1 : Nat
  user2 : Nat
  request_id : Nat
deriving DecidableEq

/-- get_user_connections (connections/views.py lines 355-368): all
users joined to `u` by a Connection row, taking the other endpoint of
each row touching `u`. -/
def get_user_connections (conns : List Connection) (u : Nat) : List Nat :=
  (conns.filter (fun c => c.user1 == u || c.user2 == u)).map
    (fun c => if c.user1 == u then c.user2 else c.user1)

/-- PostViewSet.get_queryset (feed/views.py lines 52-74): authenticated
viewers see approved posts that are public, connections-visible from a
connected author, private from themselves, or their own; anonymous
viewers fall to the branch keeping only public approved posts. -/
def post_in_queryset (conns : List Connection) (viewer : Option Nat) (p : Post) : Bool :=
  match viewer with
  | some u =>
    (p.visibility == "public"
      || (p.visibility == "connections" && (get_user_connections conns u).contains p.author)
      || (p.visibility == "private" && p.author == u)
      || p.author == u)
    && p.is_approved
  | none => p.visibility == "public" && p.is_approved

/-- Retrieval of a single post through PostViewSet: the class-level
`permission_classes = [IsAuthenticated]` gate runs first (rejecting
every anonymous request), then `get_object` looks the post up inside
`get_queryset`. -/
def can_retrieve_post (conns : List Connection) (viewer : Option Nat) (p : Post) : Bool :=
  viewer.isSome && post_in_queryset conns viewer p

/-- Connection-request row (connections/models.py
`ConnectionRequest`). -/
structure ConnectionRequest where
  id : Nat
  sender : Nat
  receiver : Nat
  message : String
  status : String
  responded_at : Option Nat
deriving DecidableEq

/-- Store the connection-request handlers operate on. -/
structure ConnState where
  requests : List ConnectionRequest
  connections : List Connection
  notifs : List NotifRow
  now : Nat
deriving DecidableEq

/-- ConnectionRequestViewSet.respond (connections/views.py lines
105-145): only the receiver of a pending request may respond; an
accept updates the request status, creates the Connection row and
notifies the sender inside one transaction — embedded as the single
atomic state transition below. -/
def respond (st : ConnState) (actor rid : Nat) (action_type : String) : ConnState × String :=
  match st.requests.find? (fun r => r.id == rid) with
  | none => (st, "not_found")
  | some req =>
    if !(req.receiver == actor) then (st, "forbidden")
    else if !(req.status == "pending") then (st, "already_responded")
    else if !(action_type == "accept" || action_type == "decline") then (st, "invalid_action")
    else
      let newStatus := if action_type == "accept" then "accepted" else "declined"
      let requests := st.requests.map fun r =>
        if r.id == rid then { r with status := newStatus, responded_at := some st.now } else r
      if action_type == "accept" then
        let connections := st.connections ++ [⟨req.sender, req.receiver, rid⟩]
        let notifs := (create_notification st.now st.notifs req.sender actor
          "connection_request" "accepted your connection request" "You are now connected"
          none none "/profile/").2
        ({ st with requests := requests, connections := connections, notifs := notifs },
          "accepted")
      else ({ st with requests := requests }, "declined")

/-- Update of the post row with key `pid` leaves rows untouched when
the update function fixes every row carrying that key. -/
theorem update_post_eq_self (posts : List Post) (pid : Nat) (f : Post → Post)
    (h : ∀ p ∈ posts, p.id = pid → f p = p) : update_post posts pid f = posts := by
  induction posts with
  | nil => rfl
  | cons a l ih =>
    have ha : (if a.id == pid then f a else a) = a := by
      by_cases hc : a.id = pid
      · simp [hc, h a (List.mem_cons_self a l) hc]
      · simp [hc]
    simp only [update_post, List.map_cons] at ih ⊢
    rw [ha, ih (fun p hp hpid => h p (List.mem_cons_of_mem a hp) hpid)]

/-- Two successive updates of the same post row compose. -/
theorem update_post_comp (posts : List Post) (pid : Nat) (f g : Post → Post)
    (hf : ∀ p, (f p).id = p.id) :
    update_post (update_post posts pid f) pid g
      = update_post posts pid (fun p => g (f p)) := by
  induction posts with
  | nil => rfl
  | cons a l ih =>
    simp only [update_post, List.map_cons] at ih ⊢
    have ha : (if (if a.id == pid then f a else a).id == pid
        then g (if a.id == pid then f a else a) else (if a.id == pid then f a else a))
        = (if a.id == pid then g (f a) else a) := by
      by_cases hc : a.id = pid
      · simp [hc, hf a]
      · simp [hc]
    rw [ha, ih]

/-- Looking a post up by key after an id-preserving update finds the
updated row. -/
theorem find?_update_post (posts : List Post) (pid : Nat) (f : Post → Post)
    (hf : ∀ p, (f p).id = p.id) :
    (update_post posts pid f).find? (fun p => p.id == pid)
      = (posts.find? (fun p => p.id == pid)).map f := by
  induction posts with
  | nil => rfl
  | cons a l ih =>
    simp only [update_post, List.map_cons]
    by_cases hc : a.id = pid
    · rw [if_pos (by simp [hc])]
      rw [List.find?_cons_of_pos _ (by simp [hf a, hc]),
        List.find?_cons_of_pos _ (by simp [hc])]
      simp
    · rw [if_neg (by simp [hc])]
      rw [List.find?_cons_of_neg _ (by simp [hc]),
        List.find?_cons_of_neg _ (by simp [hc])]
      exact ih

/-- C1: evaluation of `can_view` at the failing input.  On the
`connections` post 0 authored by user 2, the non-author viewer 1 makes
`can_view` raise AttributeError (the `received_connections` accessor
does not exist) instead of returning a boolean, so the claimed
biconditional never gets to hold for a non-author viewer; the author
escapes through the short-circuited first disjunct, and the `public`
and `private` branches return normally. -/
theorem can_view_connections_error :
    Post.can_view ⟨0, 2, "connections", true, 0, 0, 0⟩ 1 = Except.error "AttributeError" ∧
    Post.can_view ⟨0, 2, "connections", true, 0, 0, 0⟩ 2 = Except.ok true ∧
    Post.can_view ⟨0, 2, "public", true, 0, 0, 0⟩ 1 = Except.ok true ∧
    Post.can_view ⟨0, 2, "private", true, 0, 0, 0⟩ 1 = Except.ok false ∧
    Post.can_view ⟨0, 2, "private", true, 0, 0, 0⟩ 2 = Except.ok true :=
  ⟨rfl, rfl, rfl, rfl, rfl⟩

/-- C4: the notification emitter deduplicates over the
(recipient, sender, kind, post, comment) tuple within a five-minute
window — a blocked call returns none and leaves the store untouched, a
fresh call appends exactly one new unread row stamped with the current
time, and two structurally identical emissions within five minutes
store exactly one row. -/
theorem create_notification_spec (recipient sender : Nat) (ntype title message : String)
    (post comment : Option Nat) (action_url : String) :
    (∀ now notifs, notifs.any (notif_matches now recipient sender ntype post comment) = true →
      create_notification now notifs recipient sender ntype title message post comment action_url
        = (none, notifs)) ∧
    (∀ now notifs, notifs.any (notif_matches now recipient sender ntype post comment) = false →
      create_notification now notifs recipient sender ntype title message post comment action_url
        = (some ⟨recipient, sender, ntype, title, message, post, comment, action_url, false, now⟩,
            notifs ++ [⟨recipient, sender, ntype, title, message, post, comment, action_url,
              false, now⟩])) ∧
    (∀ t t' notifs,
      (∀ n ∈ notifs, ¬(n.recipient = recipient ∧ n.sender = sender ∧
        n.notification_type = ntype ∧ n.post = post ∧ n.comment = comment)) →
      t' - 5 ≤ t → t ≤ t' →
      ((create_notification t'
          (create_notification t notifs recipient sender ntype title message post comment
            action_url).2
          recipient sender ntype title message post comment action_url).2.countP
        (fun n => n.recipient == recipient && n.sender == sender &&
          n.notification_type == ntype && n.post == post && n.comment == comment)) = 1) := by
  refine ⟨fun now notifs h => ?_, fun now notifs h => ?_, fun t t' notifs hclean hwin _ => ?_⟩
  · simp [create_notification, h]
  · simp [create_notification, h]
  · have key : ∀ now' (n : NotifRow), n ∈ notifs →
        notif_matches now' recipient sender ntype post comment n = false := by
      intro now' n hn
      rw [Bool.eq_false_iff]
      intro hb
      simp only [notif_matches, Bool.and_eq_true, beq_iff_eq, decide_eq_true_eq] at hb
      obtain ⟨⟨⟨⟨⟨h1, h2⟩, h3⟩, h4⟩, h5⟩, -⟩ := hb
      exact hclean n hn ⟨h1, h2, h3, h4, h5⟩
    have hany : ∀ now', notifs.any (notif_matches now' recipient sender ntype post comment)
        = false := by
      intro now'
      rw [List.any_eq_false]
      intro n hn
      simp [key now' n hn]
    have hcount : notifs.countP
        (fun n => n.recipient == recipient && n.sender == sender &&
          n.notification_type == ntype && n.post == post && n.comment == comment) = 0 := by
      rw [List.countP_eq_zero]
      intro n hn
      simp only [Bool.and_eq_true, beq_iff_eq]
      rintro ⟨⟨⟨⟨h1, h2⟩, h3⟩, h4⟩, h5⟩
      exact hclean n hn ⟨h1, h2, h3, h4, h5⟩
    have e1 : create_notification t notifs recipient sender ntype title message post comment
        action_url
        = (some (NotifRow.mk recipient sender ntype title message post comment action_url
            false t),
          notifs ++ [NotifRow.mk recipient sender ntype title message post comment action_url
            false t]) := by
      unfold create_notification
      rw [hany t]
      simp
    rw [e1]
    have hmatch : (notifs ++ [NotifRow.mk recipient sender ntype title message post comment
        action_url false t]).any (notif_matches t' recipient sender ntype post comment)
        = true := by
      rw [List.any_append]
      have : (notif_matches t' recipient sender ntype post comment
          (NotifRow.mk recipient sender ntype title message post comment action_url false t))
          = true := by
        simp [notif_matches, hwin]
      simp [this]
    have e2 : create_notification t' (notifs ++ [NotifRow.mk recipient sender ntype title
        message post comment action_url false t]) recipient sender ntype title message post
        comment action_url
        = (none, notifs ++ [NotifRow.mk recipient sender ntype title message post comment
            action_url false t]) := by
      unfold create_notification
      rw [hmatch]
      simp
    rw [e2]
    simp [List.countP_append, List.countP_cons, hcount]

/-- Concrete witness for C4: emitting (recipient 1, sender 2, kind
`like`, post 10) against a store that already holds the same tuple
stamped in-window is a no-op; against the empty store it inserts the
row; and emitting twice at times 0 and 4 stores exactly one row. -/
theorem create_notification_spec_witness :
    create_notification 4
        [⟨1, 2, "like", "t", "m", some 10, none, "u", false, 0⟩] 1 2 "like" "t" "m"
        (some 10) none "u"
      = (none, [⟨1, 2, "like", "t", "m", some 10, none, "u", false, 0⟩]) ∧
    create_notification 0 [] 1 2 "like" "t" "m" (some 10) none "u"
      = (some ⟨1, 2, "like", "t", "m", some 10, none, "u", false, 0⟩,
          [⟨1, 2, "like", "t", "m", some 10, none, "u", false, 0⟩]) ∧
    ((create_notification 4
        (create_notification 0 [] 1 2 "like" "t" "m" (some 10) none "u").2
        1 2 "like" "t" "m" (some 10) none "u").2.countP
      (fun n => n.recipient == 1 && n.sender == 2 &&
        n.notification_type == "like" && n.post == some 10 && n.comment == none)) = 1 :=
  ⟨(create_notification_spec 1 2 "like" "t" "m" (some 10) none "u").1 4
      [⟨1, 2, "like", "t", "m", some 10, none, "u", false, 0⟩] (by decide),
   (create_notification_spec 1 2 "like" "t" "m" (some 10) none "u").2.1 0 [] (by decide),
   (create_notification_spec 1 2 "like" "t" "m" (some 10) none "u").2.2 0 4 []
      (by simp) (by decide) (by decide)⟩

/-- A like by a user with no existing reaction row takes the create
branch: it appends the reaction row, increments the post's like
counter, answers `liked`, and only the notification table depends on
whether the actor is the author. -/
theorem like_fresh (st : FeedState) (u pid : Nat) (k : String) (post : Post)
    (hfind : st.posts.find? (fun p => p.id == pid) = some post)
    (hnolike : st.likes.find? (fun l => l.user == u && l.post == pid) = none) :
    ∃ N, like st u pid k
      = ({ st with
            likes := st.likes ++ [⟨u, pid, k⟩],
            posts := update_post st.posts pid
              (fun p => { p with likes_count := p.likes_count + 1 }),
            notifs := N }, "liked") := by
  unfold like
  rw [hfind, hnolike]
  by_cases hc : post.author = u
  · refine ⟨st.notifs, ?_⟩
    dsimp only
    rw [if_pos (by simp [hc])]
  · refine ⟨(create_notification st.now st.notifs post.author u "like"
      "reacted to your post" "Your post received a reaction" (some pid) none
      "/feed/post/").2, ?_⟩
    dsimp only
    rw [if_neg (by simp [hc])]

/-- A like finding an existing row of the same kind takes the
toggle-off branch: it deletes the row and floors the decrement of the
counter at zero, using the counter value of the freshly fetched post
row. -/
theorem like_toggle_off (st : FeedState) (u pid : Nat) (k : String) (post : Post) (l : LikeRow)
    (hfind : st.posts.find? (fun p => p.id == pid) = some post)
    (hlike : st.likes.find? (fun l2 => l2.user == u && l2.post == pid) = some l)
    (hk : l.reaction_type = k) :
    like st u pid k
      = ({ st with
            likes := st.likes.filter (fun l2 => !(l2.user == u && l2.post == pid)),
            posts := update_post st.posts pid
              (fun p => { p with likes_count := max 0 (post.likes_count - 1) }) },
          "unliked") := by
  unfold like
  rw [hfind, hlike]
  dsimp only
  rw [if_pos (by simp [hk])]

/-- A like finding an existing row of a different kind takes the swap
branch: it rewrites the reaction kind in place and touches nothing
else. -/
theorem like_swap (st : FeedState) (u pid : Nat) (k : String) (post : Post) (l : LikeRow)
    (hfind : st.posts.find? (fun p => p.id == pid) = some post)
    (hlike : st.likes.find? (fun l2 => l2.user == u && l2.post == pid) = some l)
    (hk : ¬ l.reaction_type = k) :
    like st u pid k
      = ({ st with
            likes := st.likes.map (fun l2 => if l2.user == u && l2.post == pid
              then { l2 with reaction_type := k } else l2) },
          "reaction_updated") := by
  unfold like
  rw [hfind, hlike]
  dsimp only
  rw [if_neg (by simp [hk])]

/-- C2 counterexample: reacting twice with the same kind does NOT
return the full store to its initial state — user 1 double-likes post
10 authored by user 2 from a pristine store, and the final state
differs from the initial one (the first reaction's notification to the
author persists). -/
theorem like_toggle_counterexample :
    (like (like (⟨[⟨10, 2, "public", true, 0, 0, 0⟩], [], [], [], [], 0⟩ : FeedState)
        1 10 "like").1 1 10 "like").1
      ≠ (⟨[⟨10, 2, "public", true, 0, 0, 0⟩], [], [], [], [], 0⟩ : FeedState) := by
  decide

/-- C2 amended: for a user with no pre-existing reaction on the post,
reacting twice with the same kind answers `liked` then `unliked` and
restores the reaction rows and the post rows (hence the like counter)
to their initial values; every component of the state except the
notification table is restored. -/
theorem like_toggle_roundtrip (st : FeedState) (u pid : Nat) (k : String) (post : Post)
    (hfind : st.posts.find? (fun p => p.id == pid) = some post)
    (huniq : ∀ q ∈ st.posts, q.id = pid → q.likes_count = post.likes_count)
    (hnolike : ∀ l ∈ st.likes, ¬(l.user = u ∧ l.post = pid))
    (hpos : 0 ≤ post.likes_count) :
    (like st u pid k).2 = "liked" ∧
    (like (like st u pid k).1 u pid k).2 = "unliked" ∧
    (like (like st u pid k).1 u pid k).1.posts = st.posts ∧
    (like (like st u pid k).1 u pid k).1.likes = st.likes ∧
    (like (like st u pid k).1 u pid k).1
      = { st with notifs := (like (like st u pid k).1 u pid k).1.notifs } := by
  have hf : ∀ p : Post, (({ p with likes_count := p.likes_count + 1 } : Post)).id = p.id :=
    fun _ => rfl
  have hkey : ∀ l ∈ st.likes, (l.user == u && l.post == pid) = false := by
    intro l hl
    rw [Bool.eq_false_iff]
    intro hb
    simp only [Bool.and_eq_true, beq_iff_eq] at hb
    exact hnolike l hl hb
  have hnolike' : st.likes.find? (fun l => l.user == u && l.post == pid) = none := by
    rw [List.find?_eq_none]
    intro l hl
    simp [hkey l hl]
  obtain ⟨N, hstep1⟩ := like_fresh st u pid k post hfind hnolike'
  have hfind2 : ((like st u pid k).1).posts.find? (fun p => p.id == pid)
      = some { post with likes_count := post.likes_count + 1 } := by
    rw [hstep1]
    dsimp only
    rw [find?_update_post _ _ _ hf, hfind]
    rfl
  have hfindl2 : ((like st u pid k).1).likes.find? (fun l => l.user == u && l.post == pid)
      = some ⟨u, pid, k⟩ := by
    rw [hstep1]
    dsimp only
    rw [List.find?_append, hnolike']
    simp
  have hlikes : ((like st u pid k).1).likes.filter
      (fun l2 => !(l2.user == u && l2.post == pid)) = st.likes := by
    rw [hstep1]
    dsimp only
    rw [List.filter_append, List.filter_eq_self.mpr (fun l hl => by simp [hkey l hl])]
    simp
  have hposts : update_post ((like st u pid k).1).posts pid
      (fun p => { p with
          likes_count := max 0
            (({ post with likes_count := post.likes_count + 1 } : Post).likes_count - 1) })
      = st.posts := by
    rw [hstep1]
    dsimp only
    rw [update_post_comp _ _ _ _ hf]
    apply update_post_eq_self
    intro q hq hqid
    have hmax : max (0 : Int) (post.likes_count + 1 - 1) = q.likes_count := by
      rw [add_sub_cancel_right, max_eq_right hpos, huniq q hq hqid]
    simp only [hmax]
  have hstep2 := like_toggle_off ((like st u pid k).1) u pid k
    ({ post with likes_count := post.likes_count + 1 }) ⟨u, pid, k⟩ hfind2 hfindl2 rfl
  rw [hlikes, hposts] at hstep2
  refine ⟨?_, ?_, ?_, ?_, ?_⟩
  · rw [hstep1]
  · rw [hstep2]
  · rw [hstep2]
  · rw [hstep2]
  · rw [hstep2, hstep1]

/-- Concrete witness for the amended C2: user 1 double-likes post 10
authored by user 2 starting from a pristine store. -/
theorem like_toggle_roundtrip_witness :
    (like (⟨[⟨10, 2, "public", true, 0, 0, 0⟩], [], [], [], [], 0⟩ : FeedState)
        1 10 "like").2 = "liked" ∧
    (like (like (⟨[⟨10, 2, "public", true, 0, 0, 0⟩], [], [], [], [], 0⟩ : FeedState)
        1 10 "like").1 1 10 "like").2 = "unliked" ∧
    (like (like (⟨[⟨10, 2, "public", true, 0, 0, 0⟩], [], [], [], [], 0⟩ : FeedState)
        1 10 "like").1 1 10 "like").1.posts = [⟨10, 2, "public", true, 0, 0, 0⟩] ∧
    (like (like (⟨[⟨10, 2, "public", true, 0, 0, 0⟩], [], [], [], [], 0⟩ : FeedState)
        1 10 "like").1 1 10 "like").1.likes = [] ∧
    (like (like (⟨[⟨10, 2, "public", true, 0, 0, 0⟩], [], [], [], [], 0⟩ : FeedState)
        1 10 "like").1 1 10 "like").1
      = { (⟨[⟨10, 2, "public", true, 0, 0, 0⟩], [], [], [], [], 0⟩ : FeedState) with
          notifs := (like (like (⟨[⟨10, 2, "public", true, 0, 0, 0⟩], [], [], [], [], 0⟩ :
            FeedState) 1 10 "like").1 1 10 "like").1.notifs } :=
  like_toggle_roundtrip ⟨[⟨10, 2, "public", true, 0, 0, 0⟩], [], [], [], [], 0⟩ 1 10 "like"
    ⟨10, 2, "public", true, 0, 0, 0⟩ (by decide) (by decide) (by decide) (by decide)

/-- C3: reacting with kind A and then with a different kind B, from a
state with no pre-existing reaction by the user on the post, makes the
second call answer `reaction_updated`, leaves exactly one reaction row
for (user, post) and that row carries kind B, and the post table (hence
the like counter) is unchanged by the swap. -/
theorem like_swap_spec (st : FeedState) (u pid : Nat) (A B : String) (post : Post)
    (hfind : st.posts.find? (fun p => p.id == pid) = some post)
    (hnolike : ∀ l ∈ st.likes, ¬(l.user = u ∧ l.post = pid))
    (hAB : A ≠ B) :
    (like (like st u pid A).1 u pid B).2 = "reaction_updated" ∧
    reactions_for (like (like st u pid A).1 u pid B).1.likes u pid = [⟨u, pid, B⟩] ∧
    (like (like st u pid A).1 u pid B).1.posts = (like st u pid A).1.posts := by
  have hf : ∀ p : Post, (({ p with likes_count := p.likes_count + 1 } : Post)).id = p.id :=
    fun _ => rfl
  have hkey : ∀ l ∈ st.likes, (l.user == u && l.post == pid) = false := by
    intro l hl
    rw [Bool.eq_false_iff]
    intro hb
    simp only [Bool.and_eq_true, beq_iff_eq] at hb
    exact hnolike l hl hb
  have hnolike' : st.likes.find? (fun l => l.user == u && l.post == pid) = none := by
    rw [List.find?_eq_none]
    intro l hl
    simp [hkey l hl]
  obtain ⟨N, hstep1⟩ := like_fresh st u pid A post hfind hnolike'
  have hfind2 : ((like st u pid A).1).posts.find? (fun p => p.id == pid)
      = some { post with likes_count := post.likes_count + 1 } := by
    rw [hstep1]
    dsimp only
    rw [find?_update_post _ _ _ hf, hfind]
    rfl
  have hfindl2 : ((like st u pid A).1).likes.find? (fun l => l.user == u && l.post == pid)
      = some ⟨u, pid, A⟩ := by
    rw [hstep1]
    dsimp only
    rw [List.find?_append, hnolike']
    simp
  have hstep2 := like_swap ((like st u pid A).1) u pid B
    ({ post with likes_count := post.likes_count + 1 }) ⟨u, pid, A⟩ hfind2 hfindl2 hAB
  have hlikes2 : ((like st u pid A).1).likes.map
      (fun l2 => if l2.user == u && l2.post == pid
        then { l2 with reaction_type := B } else l2)
      = st.likes ++ [⟨u, pid, B⟩] := by
    rw [hstep1]
    dsimp only
    rw [List.map_append,
      List.map_congr_left (fun l hl => by rw [if_neg (by simp [hkey l hl])])]
    simp [List.map_id]
  rw [hlikes2] at hstep2
  refine ⟨?_, ?_, ?_⟩
  · rw [hstep2]
  · rw [hstep2]
    show reactions_for (st.likes ++ [⟨u, pid, B⟩]) u pid = [⟨u, pid, B⟩]
    unfold reactions_for
    rw [List.filter_append]
    rw [List.filter_eq_nil_iff.mpr (fun l hl => by simp [hkey l hl])]
    simp
  · rw [hstep2]

/-- Concrete witness for C3: user 1 reacts `like` then `love` on post
10 authored by user 2 starting from a pristine store. -/
theorem like_swap_spec_witness :
    (like (like (⟨[⟨10, 2, "public", true, 0, 0, 0⟩], [], [], [], [], 0⟩ : FeedState)
        1 10 "like").1 1 10 "love").2 = "reaction_updated" ∧
    reactions_for (like (like (⟨[⟨10, 2, "public", true, 0, 0, 0⟩], [], [], [], [], 0⟩ :
        FeedState) 1 10 "like").1 1 10 "love").1.likes 1 10 = [⟨1, 10, "love"⟩] ∧
    (like (like (⟨[⟨10, 2, "public", true, 0, 0, 0⟩], [], [], [], [], 0⟩ : FeedState)
        1 10 "like").1 1 10 "love").1.posts
      = (like (⟨[⟨10, 2, "public", true, 0, 0, 0⟩], [], [], [], [], 0⟩ : FeedState)
          1 10 "like").1.posts :=
  like_swap_spec ⟨[⟨10, 2, "public", true, 0, 0, 0⟩], [], [], [], [], 0⟩ 1 10 "like" "love"
    ⟨10, 2, "public", true, 0, 0, 0⟩ (by decide) (by decide) (by decide)

/-- A share by a user with no existing share row takes the create
branch: it appends the row and increments the share counter; the
response depends only on whether the actor is the author (the
non-author branch dies building the notification title). -/
theorem share_fresh (st : FeedState) (u pid : Nat) (c : String) (post : Post)
    (hfind : st.posts.find? (fun p => p.id == pid) = some post)
    (hnoshare : st.shares.find? (fun s => s.user == u && s.post == pid) = none) :
    ∃ r, share st u pid c
      = ({ st with
            shares := st.shares ++ [⟨u, pid, c⟩],
            posts := update_post st.posts pid
              (fun p => { p with shares_count := p.shares_count + 1 }) }, r) := by
  unfold share
  rw [hfind, hnoshare]
  by_cases hc : post.author = u
  · refine ⟨"shared", ?_⟩
    dsimp only
    rw [if_pos (by simp [hc])]
  · refine ⟨"error", ?_⟩
    dsimp only
    rw [if_neg (by simp [hc])]

/-- A share finding an existing row for (user, post) is an exact no-op
answering `already_shared`. -/
theorem share_existing (st : FeedState) (u pid : Nat) (c : String) (post : Post) (s0 : ShareRow)
    (hfind : st.posts.find? (fun p => p.id == pid) = some post)
    (hs : st.shares.find? (fun s => s.user == u && s.post == pid) = some s0) :
    share st u pid c = (st, "already_shared") := by
  unfold share
  rw [hfind, hs]

/-- C6: a first share by a user who has not shared the post creates the
single share row and increments the share counter, every further share
call by that user is an exact no-op answering `already_shared`, and the
pair (user, post) carries exactly one share row. -/
theorem share_idempotent (st : FeedState) (u pid : Nat) (c c2 : String) (post : Post)
    (hfind : st.posts.find? (fun p => p.id == pid) = some post)
    (hnoshare : ∀ s ∈ st.shares, ¬(s.user = u ∧ s.post = pid)) :
    (share st u pid c).1.shares = st.shares ++ [⟨u, pid, c⟩] ∧
    (share st u pid c).1.posts = update_post st.posts pid
      (fun p => { p with shares_count := p.shares_count + 1 }) ∧
    share (share st u pid c).1 u pid c2 = ((share st u pid c).1, "already_shared") ∧
    (share st u pid c).1.shares.filter (fun s => s.user == u && s.post == pid)
      = [⟨u, pid, c⟩] := by
  have hfs : ∀ p : Post, (({ p with shares_count := p.shares_count + 1 } : Post)).id = p.id :=
    fun _ => rfl
  have hkey : ∀ s ∈ st.shares, (s.user == u && s.post == pid) = false := by
    intro s hs
    rw [Bool.eq_false_iff]
    intro hb
    simp only [Bool.and_eq_true, beq_iff_eq] at hb
    exact hnoshare s hs hb
  have hnoshare' : st.shares.find? (fun s => s.user == u && s.post == pid) = none := by
    rw [List.find?_eq_none]
    intro s hs
    simp [hkey s hs]
  obtain ⟨r, hstep1⟩ := share_fresh st u pid c post hfind hnoshare'
  have hfind2 : ((share st u pid c).1).posts.find? (fun p => p.id == pid)
      = some { post with shares_count := post.shares_count + 1 } := by
    rw [hstep1]
    dsimp only
    rw [find?_update_post _ _ _ hfs, hfind]
    rfl
  have hfinds2 : ((share st u pid c).1).shares.find? (fun s => s.user == u && s.post == pid)
      = some ⟨u, pid, c⟩ := by
    rw [hstep1]
    dsimp only
    rw [List.find?_append, hnoshare']
    simp
  refine ⟨by rw [hstep1], by rw [hstep1], ?_, ?_⟩
  · exact share_existing _ u pid c2 _ _ hfind2 hfinds2
  · rw [hstep1]
    dsimp only
    rw [List.filter_append, List.filter_eq_nil_iff.mpr (fun s hs => by simp [hkey s hs])]
    simp

/-- Concrete witness for C6: user 1 shares post 10 twice starting from
a pristine store. -/
theorem share_idempotent_witness :
    (share (⟨[⟨10, 2, "public", true, 0, 0, 0⟩], [], [], [], [], 0⟩ : FeedState)
        1 10 "fyi").1.shares = [⟨1, 10, "fyi"⟩] ∧
    (share (⟨[⟨10, 2, "public", true, 0, 0, 0⟩], [], [], [], [], 0⟩ : FeedState)
        1 10 "fyi").1.posts = update_post [⟨10, 2, "public", true, 0, 0, 0⟩] 10
      (fun p => { p with shares_count := p.shares_count + 1 }) ∧
    share (share (⟨[⟨10, 2, "public", true, 0, 0, 0⟩], [], [], [], [], 0⟩ : FeedState)
        1 10 "fyi").1 1 10 "again"
      = ((share (⟨[⟨10, 2, "public", true, 0, 0, 0⟩], [], [], [], [], 0⟩ : FeedState)
          1 10 "fyi").1, "already_shared") ∧
    (share (⟨[⟨10, 2, "public", true, 0, 0, 0⟩], [], [], [], [], 0⟩ : FeedState)
        1 10 "fyi").1.shares.filter (fun s => s.user == 1 && s.post == 10)
      = [⟨1, 10, "fyi"⟩] :=
  share_idempotent ⟨[⟨10, 2, "public", true, 0, 0, 0⟩], [], [], [], [], 0⟩ 1 10 "fyi" "again"
    ⟨10, 2, "public", true, 0, 0, 0⟩ (by decide) (by decide)

/-- C5: evaluation at the failing input.  User 1 shares post 10
authored by user 2 from a pristine store: the share row is created but
the handler errors out building the notification title
(`request.user.full_name()` calls a property), so no notification to
the author is ever emitted.  The reaction and comment flows do notify:
a comment by user 1 on user 2's post yields exactly one `comment`
notification to user 2 and none to user 1, a comment by the author
yields none, and a reaction by user 1 yields exactly one `like`
notification to user 2. -/
theorem author_notification_on_engagement :
    (share (⟨[⟨10, 2, "public", true, 0, 0, 0⟩], [], [], [], [], 0⟩ : FeedState)
      1 10 "").2 = "error" ∧
    (share (⟨[⟨10, 2, "public", true, 0, 0, 0⟩], [], [], [], [], 0⟩ : FeedState)
      1 10 "").1.notifs = [] ∧
    (share (⟨[⟨10, 2, "public", true, 0, 0, 0⟩], [], [], [], [], 0⟩ : FeedState)
      1 10 "").1.shares = [⟨1, 10, ""⟩] ∧
    (comment_create (⟨[⟨10, 2, "public", true, 0, 0, 0⟩], [], [], [], [], 0⟩ : FeedState)
      1 10 100 "Great" []).1.notifs.countP
        (fun n => n.recipient == 2 && n.notification_type == "comment") = 1 ∧
    (comment_create (⟨[⟨10, 2, "public", true, 0, 0, 0⟩], [], [], [], [], 0⟩ : FeedState)
      1 10 100 "Great" []).1.notifs.countP (fun n => n.recipient == 1) = 0 ∧
    (comment_create (⟨[⟨10, 2, "public", true, 0, 0, 0⟩], [], [], [], [], 0⟩ : FeedState)
      2 10 101 "Own" []).1.notifs = [] ∧
    (like (⟨[⟨10, 2, "public", true, 0, 0, 0⟩], [], [], [], [], 0⟩ : FeedState)
      1 10 "like").1.notifs.countP
        (fun n => n.recipient == 2 && n.notification_type == "like") = 1 := by
  decide

/-- Rows of an updated post table stay non-negative when the update
function preserves non-negativity of the like counter. -/
theorem update_post_nonneg (posts : List Post) (pid : Nat) (f : Post → Post)
    (h : ∀ p ∈ posts, 0 ≤ p.likes_count)
    (hf : ∀ p ∈ posts, 0 ≤ p.likes_count → 0 ≤ (f p).likes_count) :
    ∀ p ∈ update_post posts pid f, 0 ≤ p.likes_count := by
  intro p hp
  obtain ⟨q, hq, rfl⟩ := List.mem_map.mp hp
  by_cases hc : q.id = pid
  · rw [if_pos (by simp [hc])]
    exact hf q hq (h q hq)
  · rw [if_neg (by simp [hc])]
    exact h q hq

/-- One like/react request keeps every post's like counter
non-negative: the create branch adds one to a non-negative value and
the toggle-off branch floors the decrement at zero. -/
theorem like_step_nonneg (st : FeedState) (u pid : Nat) (k : String)
    (h : ∀ p ∈ st.posts, 0 ≤ p.likes_count) :
    ∀ p ∈ (like st u pid k).1.posts, 0 ≤ p.likes_count := by
  unfold like
  cases hfind : st.posts.find? (fun p => p.id == pid) with
  | none => exact h
  | some post =>
    cases hlike : st.likes.find? (fun l => l.user == u && l.post == pid) with
    | some l =>
      dsimp only
      by_cases hk : l.reaction_type = k
      · rw [if_pos (by simp [hk])]
        dsimp only
        exact update_post_nonneg _ _ _ h (fun p _ _ => le_max_left 0 _)
      · rw [if_neg (by simp [hk])]
        exact h
    | none =>
      dsimp only
      by_cases hauthor : post.author = u
      · rw [if_pos (by simp [hauthor])]
        dsimp only
        exact update_post_nonneg _ _ _ h
          (fun p _ hp => add_nonneg hp zero_le_one)
      · rw [if_neg (by simp [hauthor])]
        dsimp only
        exact update_post_nonneg _ _ _ h
          (fun p _ hp => add_nonneg hp zero_le_one)

/-- C10: across any sequence of like/react requests the like counter of
every post stays non-negative. -/
theorem run_likes_nonneg (ops : List (Nat × Nat × String)) (st : FeedState)
    (h : ∀ p ∈ st.posts, 0 ≤ p.likes_count) :
    ∀ p ∈ (run_likes st ops).posts, 0 ≤ p.likes_count := by
  induction ops generalizing st with
  | nil => exact h
  | cons op rest ih =>
    have hstep := like_step_nonneg st op.1 op.2.1 op.2.2 h
    simp only [run_likes, List.foldl_cons] at ih ⊢
    exact ih _ hstep

/-- Concrete witness for C10: a post whose stored counter is already
zero while a like row exists (counter drift) is toggled off and then
liked again; the counter never goes below zero. -/
theorem run_likes_nonneg_witness :
    (0 : Int) ≤ (Post.mk 10 2 "public" true 1 0 0).likes_count :=
  run_likes_nonneg [(1, 10, "like"), (1, 10, "like")]
    ⟨[⟨10, 2, "public", true, 0, 0, 0⟩], [⟨1, 10, "like"⟩], [], [], [], 0⟩
    (by decide) (Post.mk 10 2 "public" true 1 0 0) (by decide)

/-- C7: the feed-algorithm weight update is accepted exactly when the
five weights sum to a value in the closed interval [0.8, 1.2]; in
particular a set summing to 0.5 or to 1.5 is rejected and a set summing
to 1.05 is accepted. -/
theorem validate_weights_spec :
    (∀ cw ew rcw sw tw : ℚ, validate_weights cw ew rcw sw tw = true ↔
      (0.8 : ℚ) ≤ cw + ew + rcw + sw + tw ∧ cw + ew + rcw + sw + tw ≤ (1.2 : ℚ)) ∧
    validate_weights 0.1 0.1 0.1 0.1 0.1 = false ∧
    validate_weights 0.3 0.3 0.3 0.3 0.3 = false ∧
    validate_weights 0.25 0.2 0.2 0.2 0.2 = true := by
  refine ⟨fun cw ew rcw sw tw => ?_, by norm_num [validate_weights],
    by norm_num [validate_weights], by norm_num [validate_weights]⟩
  simp [validate_weights]

/-- C8 counterexample: an unauthenticated viewer cannot retrieve a
public approved post — the posts endpoint's IsAuthenticated permission
rejects every anonymous request before the queryset runs. -/
theorem anonymous_public_retrieval_counterexample :
    can_retrieve_post [] none ⟨10, 1, "public", true, 0, 0, 0⟩ = false := by
  decide

/-- C8 amended: an anonymous viewer can retrieve no post at all (the
endpoint requires authentication), while the anonymous branch of the
queryset filter — had it been reachable — keeps exactly the posts that
are public and approved, so in particular a private post is never
exposed to an anonymous viewer. -/
theorem anonymous_retrieval_spec (conns : List Connection) (p : Post) :
    can_retrieve_post conns none p = false ∧
    (post_in_queryset conns none p = true ↔
      p.visibility = "public" ∧ p.is_approved = true) := by
  constructor
  · rfl
  · simp [post_in_queryset]

/-- C9 counterexample: user 1 sends request 5 to user 2 and user 2
accepts; the accept succeeds, yet no notification of kind
`connection accepted` exists for user 1 — the emitted kind is
`connection_request`. -/
theorem respond_accept_counterexample :
    (respond (⟨[⟨5, 1, 2, "", "pending", none⟩], [], [], 0⟩ : ConnState) 2 5 "accept").2
      = "accepted" ∧
    ((respond (⟨[⟨5, 1, 2, "", "pending", none⟩], [], [], 0⟩ : ConnState) 2 5 "accept").1.notifs.any
      (fun n => n.recipient == 1 && n.notification_type == "connection accepted")) = false := by
  decide

/-- C9 amended: when the receiver accepts a pending request, the
response is `accepted`, a Connection row joining sender and receiver
now exists, every stored copy of the request carries status `accepted`,
and an unread notification of kind `connection_request` (title saying
the request was accepted) was created for the sender — all in one
atomic state transition. -/
theorem respond_accept_spec (st : ConnState) (actor rid : Nat) (req : ConnectionRequest)
    (hfind : st.requests.find? (fun r => r.id == rid) = some req)
    (hrecv : req.receiver = actor)
    (hpending : req.status = "pending")
    (hfresh : st.notifs.any
      (notif_matches st.now req.sender actor "connection_request" none none) = false) :
    (respond st actor rid "accept").2 = "accepted" ∧
    (⟨req.sender, req.receiver, rid⟩ : Connection)
      ∈ (respond st actor rid "accept").1.connections ∧
    (∀ r ∈ (respond st actor rid "accept").1.requests, r.id = rid → r.status = "accepted") ∧
    ∃ n ∈ (respond st actor rid "accept").1.notifs,
      n.recipient = req.sender ∧ n.sender = actor ∧
        n.notification_type = "connection_request" ∧ n.is_read = false := by
  have hnrow : (create_notification st.now st.notifs req.sender actor "connection_request"
      "accepted your connection request" "You are now connected" none none "/profile/").2
      = st.notifs ++ [⟨req.sender, actor, "connection_request",
          "accepted your connection request", "You are now connected", none, none,
          "/profile/", false, st.now⟩] := by
    unfold create_notification
    rw [hfresh]
    simp
  have hstep : respond st actor rid "accept"
      = ({ st with
            requests := st.requests.map fun r =>
              if r.id == rid then { r with status := "accepted", responded_at := some st.now }
              else r,
            connections := st.connections ++ [⟨req.sender, req.receiver, rid⟩],
            notifs := st.notifs ++ [⟨req.sender, actor, "connection_request",
              "accepted your connection request", "You are now connected", none, none,
              "/profile/", false, st.now⟩] }, "accepted") := by
    unfold respond
    rw [hfind]
    dsimp only
    rw [if_neg (by simp [hrecv]), if_neg (by simp [hpending]), if_neg (by simp),
      if_pos (by simp), if_pos (by simp)]
    rw [hnrow]
  refine ⟨by rw [hstep], ?_, ?_, ?_⟩
  · rw [hstep]
    exact List.mem_append_right _ (by simp)
  · rw [hstep]
    intro r hr hid
    obtain ⟨q, hq, rfl⟩ := List.mem_map.mp hr
    by_cases hc : q.id = rid
    · rw [if_pos (by simp [hc])]
    · rw [if_neg (by simp [hc])] at hid ⊢
      exact absurd hid hc
  · rw [hstep]
    exact ⟨⟨req.sender, actor, "connection_request", "accepted your connection request",
      "You are now connected", none, none, "/profile/", false, st.now⟩,
      List.mem_append_right _ (by simp), rfl, rfl, rfl, rfl⟩

/-- Concrete witness for the amended C9: user 2 accepts the pending
request 5 from user 1. -/
theorem respond_accept_spec_witness :
    (respond (⟨[⟨5, 1, 2, "", "pending", none⟩], [], [], 0⟩ : ConnState) 2 5 "accept").2
      = "accepted" :=
  (respond_accept_spec ⟨[⟨5, 1, 2, "", "pending", none⟩], [], [], 0⟩ 2 5
    ⟨5, 1, 2, "", "pending", none⟩ (by decide) (by decide) (by decide) (by decide)).1

end BYN
